import Mathlib

/-! Verification development for the harlequin duckdb adapter core:
the initialization-script splitter, the dot-command rewriter, the
column-type normalizer, the catalog builder and the session bootstrap
loop, shallowly embedded from src/src/harlequin_duckdb/adapter.py. -/

/-- The newline character as a string. -/
def nl : String := "\n"

/-- The empty string. -/
def emptyS : String := ""

/-- The dot character as a string. -/
def dotS : String := "."

/-- The semicolon as a string. -/
def semiS : String := ";"

/-- The forward slash as a string. -/
def slashS : String := "/"

/-- The double-quote character as a string. -/
def dq : String := "\""

/-- The single-quote character as a string. -/
def sqS : String := "\x27"

/-- Literal piece "attach " used by the dot-open rewriter. -/
def attachS : String := "attach "

/-- The literal read-only flag recognized by the dot-open rewriter. -/
def roFlagS : String := "--readonly"

/-- Literal piece " (READ_ONLY)" used by the dot-open rewriter. -/
def readOnlyOptS : String := " (READ_ONLY)"

/-- Literal piece " as " used by the dot-open rewriter. -/
def asS : String := " as "

/-- Literal piece "; use " used by the dot-open rewriter. -/
def useS : String := "; use "

/-- The meta-command name ".open". -/
def openS : String := ".open"

/-- The literal result of rewriting a bare ".open" command. -/
def memoryAttachS : String := "attach \x27:memory:\x27; use memory;"

/-- Literal piece "Executed " of the bootstrap success message. -/
def executedS : String := "Executed "

/-- A single space. -/
def spaceS : String := " "

/-- Literal word "command" of the bootstrap success message. -/
def cmdS : String := "command"

/-- Literal word "commands" of the bootstrap success message. -/
def cmdsS : String := "commands"

/-- Literal piece " from " of the bootstrap success message. -/
def fromS : String := " from "

/-- Literal piece of the bootstrap error message. -/
def attemptS : String := "Attempted to execute script at "

/-- The fixed title of the bootstrap connection error. -/
def initErrTitleS : String := "DuckDB could not execute your initialization script."

/-- The fixed type label of schema catalog nodes. -/
def schTagS : String := "sch"

/-- The fixed type label of database catalog nodes. -/
def dbTagS : String := "db"

/-- Characters stripped by the Python str.strip method (whitespace). -/
def isPySpace (c : Char) : Bool :=
  [9, 10, 11, 12, 13, 28, 29, 30, 31, 32, 133, 160, 5760, 8192, 8193, 8194, 8195,
    8196, 8197, 8198, 8199, 8200, 8201, 8202, 8232, 8233, 8239, 8287, 12288].contains c.toNat

/-- Line-boundary characters of the Python str.splitlines method. -/
def isPyLineBreak (c : Char) : Bool :=
  [10, 11, 12, 13, 28, 29, 30, 133, 8232, 8233].contains c.toNat

/-- Model of the Python str.startswith method. -/
def pyStartsWith (s pat : String) : Bool := pat.toList.isPrefixOf s.toList

/-- Model of the Python str.endswith method. -/
def pyEndsWith (s pat : String) : Bool := pat.toList.isSuffixOf s.toList

/-- Split a character list at every character satisfying the predicate,
keeping empty pieces, as the Python str.split method does with an explicit
separator. -/
def splitPred (p : Char → Bool) : List Char → List (List Char)
  | [] => [[]]
  | c :: cs =>
    let r := splitPred p cs
    if p c then [] :: r
    else
      match r with
      | [] => [[c]]
      | h :: t => (c :: h) :: t

/-- Model of the Python str.split method with a one-character separator:
split at every occurrence, keeping empty pieces. -/
def pySplitOnChar (sep : Char) (s : String) : List String :=
  (splitPred (fun c => c == sep) s.toList).map String.mk

/-- Model of the Python str.join method. -/
def pyJoin (sep : String) : List String → String
  | [] => emptyS
  | [s] => s
  | s :: rest => s ++ sep ++ pyJoin sep rest

/-- Model of the Python str.split method with no argument: split on runs of
whitespace, discarding empty pieces. -/
def pySplitWs (s : String) : List String :=
  ((splitPred isPySpace s.toList).map String.mk).filter (fun t => !t.toList.isEmpty)

/-- Strip whitespace from both ends of a character list: drop from the left,
then drop from the right (the right side via List.rdropWhile). -/
def pyStripL (l : List Char) : List Char :=
  List.rdropWhile isPySpace (l.dropWhile isPySpace)

/-- Model of the Python str.strip method with no argument. -/
def pyStrip (s : String) : String := String.mk (pyStripL s.toList)

/-- Collapse each carriage-return-plus-newline pair into a single newline,
so that the pair forms one line boundary, as in the Python str.splitlines
method. -/
def collapseCR : List Char → List Char
  | [] => []
  | '\r' :: '\n' :: cs => '\n' :: collapseCR cs
  | c :: cs => c :: collapseCR cs

/-- Worker for pySplitlines: accumulates the current line (reversed) and
emits a line at each line-boundary character; a nonempty trailing line is
emitted, an empty one is not. -/
def pySplitlinesCore (acc : List Char) : List Char → List String
  | [] => if acc.isEmpty then [] else [String.mk acc.reverse]
  | c :: cs =>
    if isPyLineBreak c then String.mk acc.reverse :: pySplitlinesCore [] cs
    else pySplitlinesCore (c :: acc) cs

/-- Model of the Python str.splitlines method. -/
def pySplitlines (s : String) : List String := pySplitlinesCore [] (collapseCR s.toList)

/-- Path components of a POSIX pure path: split on slashes, dropping empty
components and single-dot components, as the Python pathlib parser does. -/
def posixParts (s : String) : List String :=
  (pySplitOnChar '/' s).filter (fun t => !t.toList.isEmpty && t != dotS)

/-- Root of a POSIX pure path: exactly two leading slashes give a double
root, otherwise any leading slash gives a single root. -/
def posixRoot (s : String) : String :=
  if pyStartsWith s (slashS ++ slashS) && !(pyStartsWith s (slashS ++ slashS ++ slashS)) then
    slashS ++ slashS
  else if pyStartsWith s slashS then slashS
  else emptyS

/-- Model of str(pathlib.PurePosixPath(s)): the normalized rendering, which
is the root followed by the slash-joined parts, or a single dot when both
are empty. -/
def posixStr (s : String) : String :=
  let body := pyJoin slashS (posixParts s)
  if (posixRoot s ++ body).toList.isEmpty then dotS else posixRoot s ++ body

/-- Model of pathlib name: the final path component, empty when there is
none. -/
def posixName (s : String) : String := (posixParts s).getLastD emptyS

/-- Index of the last dot in a character list, if any. -/
def lastDotIdx (l : List Char) : Option Nat :=
  match l.reverse.findIdx? (fun c => c == '.') with
  | some k => some (l.length - 1 - k)
  | none => none

/-- Model of pathlib stem: the final component without its last suffix.
Following the CPython source, the name is cut at its last dot only when
that dot is neither the first nor the last character of the name. -/
def posixStem (s : String) : String :=
  let nm := posixName s
  match lastDotIdx nm.toList with
  | some i => if 0 < i && i < nm.length - 1 then String.mk (nm.toList.take i) else nm
  | none => nm

/-- The unknown-type marker of DuckDbConnection. -/
def UNKNOWN_TYPE : String := "?"

/-- The relation-kind table RELATION_TYPE_MAPPING of DuckDbConnection. -/
def RELATION_TYPE_MAPPING : List (String × String) :=
  [((r"BASE TABLE"), (r"t")),
   ((r"LOCAL TEMPORARY"), (r"tmp")),
   ((r"VIEW"), (r"v"))]

/-- The column-type table COLUMN_TYPE_MAPPING of DuckDbConnection. -/
def COLUMN_TYPE_MAPPING : List (String × String) :=
  [((r"SQLNULL"), (r"\n")),
   ((r"BOOLEAN"), (r"t/f")),
   ((r"TINYINT"), (r"#")),
   ((r"UTINYINT"), (r"u#")),
   ((r"SMALLINT"), (r"#")),
   ((r"USMALLINT"), (r"u#")),
   ((r"INTEGER"), (r"#")),
   ((r"UINTEGER"), (r"u#")),
   ((r"BIGINT"), (r"##")),
   ((r"UBIGINT"), (r"u##")),
   ((r"HUGEINT"), (r"###")),
   ((r"UUID"), (r"uid")),
   ((r"FLOAT"), (r"#.#")),
   ((r"DOUBLE"), (r"#.#")),
   ((r"DATE"), (r"d")),
   ((r"TIMESTAMP"), (r"ts")),
   ((r"TIMESTAMP_MS"), (r"ts")),
   ((r"TIMESTAMP_NS"), (r"ts")),
   ((r"TIMESTAMP_S"), (r"ts")),
   ((r"TIME"), (r"t")),
   ((r"TIME_TZ"), (r"ttz")),
   ((r"TIMESTAMP_TZ"), (r"ttz")),
   ((r"TIMESTAMP WITH TIME ZONE"), (r"ttz")),
   ((r"VARCHAR"), (r"s")),
   ((r"BLOB"), (r"0b")),
   ((r"BIT"), (r"010")),
   ((r"INTERVAL"), (r"|-|")),
   ((r"DECIMAL"), (r"#.#")),
   ((r"REAL"), (r"#.#")),
   ((r"STRUCT"), (r"\x7b\x7d")),
   ((r"MAP"), (r"\x7bm\x7d"))]

/-- DuckDbConnection._short_relation_type: look up the relation kind,
defaulting to the unknown marker. -/
def _short_relation_type (native_type : String) : String :=
  (List.lookup native_type RELATION_TYPE_MAPPING).getD UNKNOWN_TYPE

/-- The base-type computation of DuckDbConnection._short_column_type:
the part of the native type before the first opening parenthesis, then
before the first opening bracket. -/
def base_of (native_type : String) : String :=
  String.mk ((splitPred (fun c => c == '[')
    ((splitPred (fun c => c == '(') native_type.toList).headD [])).headD [])

/-- DuckDbConnection._short_column_type: look up the stripped base type,
defaulting to the unknown marker, and wrap the result in square brackets
when the original native type ends with a list suffix. -/
def _short_column_type (native_type : String) : String :=
  let short_base_type := (List.lookup (base_of native_type) COLUMN_TYPE_MAPPING).getD UNKNOWN_TYPE
  if pyEndsWith native_type (r"[]") then (r"[") ++ short_base_type ++ (r"]")
  else short_base_type

/-- The body of the command-collecting loop of DuckDbAdapter._split_script:
the state is the index after the last boundary together with the commands
collected so far; at an enumerated line that starts with a dot, append the
newline-join of the line slice since the last boundary and then the dot
line itself, and move the boundary index past the dot line. -/
def split_fold (lines : List String) (st : Nat × List String) (p : Nat × String) :
    Nat × List String :=
  if pyStartsWith p.2 dotS then
    (p.1 + 1, st.2 ++ [pyJoin nl ((lines.drop st.1).take (p.1 - st.1)), p.2])
  else st

/-- The command-collecting loop of DuckDbAdapter._split_script, before the
final filter and strip: fold the loop body over the enumerated lines from
index zero, then append the newline-join of the remaining lines. -/
def _split_script_raw (script : String) : List String :=
  let lines := pySplitlines script
  let st := lines.enum.foldl (split_fold lines) ((0 : Nat), ([] : List String))
  st.2 ++ [pyJoin nl (lines.drop st.1)]

/-- DuckDbAdapter._split_script: the collected commands, keeping those that
are nonempty before stripping, each stripped. -/
def _split_script (script : String) : List String :=
  ((_split_script_raw script).filter (fun c => !c.toList.isEmpty)).map pyStrip

/-- DuckDbAdapter._rewrite_dot_open: tokenize the command on whitespace and
drop the command name; with no arguments attach an in-memory database;
with exactly two arguments whose first is the read-only flag attach the
second read-only; otherwise attach the first token. -/
def _rewrite_dot_open (command : String) : String :=
  let args := (pySplitWs command).drop 1
  if args.isEmpty then memoryAttachS
  else
    let ro := args.length == 2 && args.headD emptyS == roFlagS
    let db_path := if ro then args.getD 1 emptyS else args.headD emptyS
    let option := if ro then readOnlyOptS else emptyS
    attachS ++ sqS ++ posixStr db_path ++ sqS ++ option ++ asS ++ posixStem db_path ++
      useS ++ posixStem db_path ++ semiS

/-- DuckDbAdapter._rewrite_init_command: commands not starting with a dot
are returned unchanged; commands starting with ".open" are rewritten by
the dot-open rule; every other dot command becomes the empty string. -/
def _rewrite_init_command (command : String) : String :=
  if !(pyStartsWith command dotS) then command
  else if pyStartsWith command openS then _rewrite_dot_open command
  else emptyS

/-- Modelled from the spec: the CatalogItem node of harlequin.catalog
(that module is not under src); per the data model it carries a qualified
identifier, a query name, a label, a type label and ordered children. -/
structure CatalogItem where
  qualified_identifier : String
  query_name : String
  label : String
  type_label : String
  children : List CatalogItem
deriving Repr

/-- Modelled from the spec: the Catalog container of harlequin.catalog,
an ordered sequence of top-level database items. -/
structure Catalog where
  items : List CatalogItem
deriving Repr

/-- The metadata-query capability consumed by the catalog builder: the
four fallible queries _get_databases, _get_schemas, _get_tables and
_get_columns of DuckDbConnection, each returning rows or an engine
error. -/
structure MetaSource where
  _get_databases : Except String (List String)
  _get_schemas : String → Except String (List String)
  _get_tables : String → String → Except String (List (String × String))
  _get_columns : String → String → String → Except String (List (String × String))

/-- DuckDbConnection.get_catalog: walk databases, schemas, tables and
columns in the order returned by the metadata queries, building the
catalog tree bottom-up with quoted nested identifiers; any query failure
propagates. -/
def get_catalog (src : MetaSource) : Except String Catalog := do
  let databases ← src._get_databases
  let catalog_items ← databases.mapM (fun database => do
    let database_identifier := dq ++ database ++ dq
    let schemas ← src._get_schemas database
    let schema_items ← schemas.mapM (fun schema => do
      let schema_identifier := database_identifier ++ dotS ++ dq ++ schema ++ dq
      let tables ← src._get_tables database schema
      let table_items ← tables.mapM (fun tk => do
        let table_identifier := schema_identifier ++ dotS ++ dq ++ tk.1 ++ dq
        let columns ← src._get_columns database schema tk.1
        let column_items := columns.map (fun col =>
          CatalogItem.mk (table_identifier ++ dotS ++ dq ++ col.1 ++ dq) (dq ++ col.1 ++ dq)
            col.1 (_short_column_type col.2) [])
        pure (CatalogItem.mk table_identifier table_identifier tk.1
          (_short_relation_type tk.2) column_items))
      pure (CatalogItem.mk schema_identifier schema_identifier schema schTagS table_items))
    pure (CatalogItem.mk database_identifier database_identifier database dbTagS schema_items))
  pure (Catalog.mk catalog_items)

/-- The connection error of src/src/harlequin/exception.py: a message and
a title. -/
structure HarlequinConnectionError where
  msg : String
  title : String
deriving Repr

/-- The inner statement loop of DuckDbAdapter.connect: for each piece of a
rewritten command, when its stripped form is nonempty submit it to the
engine and count it; an engine error stops the loop at once. -/
def connect_run_stmts {σ : Type} (execStmt : σ → String → Except String σ) :
    σ → Nat → List String → σ × Nat × Option String
  | s, n, [] => (s, n, none)
  | s, n, cmd :: rest =>
    if !(pyStrip cmd).toList.isEmpty then
      match execStmt s cmd with
      | .ok s2 => connect_run_stmts execStmt s2 (n + 1) rest
      | .error e => (s, n, some e)
    else connect_run_stmts execStmt s n rest

/-- The outer command loop of DuckDbAdapter.connect: rewrite each split
command, split the result on semicolons and run the inner loop; an engine
error stops everything at once. -/
def connect_run_commands {σ : Type} (execStmt : σ → String → Except String σ) :
    σ → Nat → List String → σ × Nat × Option String
  | s, n, [] => (s, n, none)
  | s, n, command :: rest =>
    match connect_run_stmts execStmt s n (pySplitOnChar ';' (_rewrite_init_command command)) with
    | (s2, n2, none) => connect_run_commands execStmt s2 n2 rest
    | (s2, n2, some e) => (s2, n2, some e)

/-- The bootstrap success message of DuckDbAdapter.connect. -/
def execMsg (count : Nat) (init_path : String) : String :=
  executedS ++ toString count ++ spaceS ++ (if count == 1 then cmdS else cmdsS) ++
    fromS ++ init_path

/-- The bootstrap error message of DuckDbAdapter.connect, which embeds the
first character of the script and the engine error. -/
def scriptErrMsg (init_script e : String) : String :=
  attemptS ++ String.mk (init_script.toList.take 1) ++ nl ++ e

/-- The initialization-script portion of DuckDbAdapter.connect: split the
script, run the command loop from count zero, and either report the
success message or raise a HarlequinConnectionError wrapping the engine
error; the final engine state is returned in both cases, since the
underlying connection keeps whatever the executed statements did. -/
def connect_init {σ : Type} (execStmt : σ → String → Except String σ) (connection : σ)
    (init_path init_script : String) : σ × Except HarlequinConnectionError String :=
  match connect_run_commands execStmt connection 0 (_split_script init_script) with
  | (s, count, none) => (s, Except.ok (if count > 0 then execMsg count init_path else emptyS))
  | (s, _, some e) =>
    (s, Except.error (HarlequinConnectionError.mk (scriptErrMsg init_script e) initErrTitleS))

/-- The example script of claim C1. -/
def c1_exampleScript : String := "select 1;\n.open foo.db\nselect 2;"

/-- Modelled on the spec wording quoted by claim C1: scanning lines in
order, a line whose first character is a dot emits the newline-join of
the pending lines since the last boundary and then the dot line itself;
after the scan the join of the remaining trailing lines is emitted. -/
def c1_emit (pending : List String) : List String → List String
  | [] => [pyJoin nl pending]
  | l :: ls =>
    if pyStartsWith l dotS then pyJoin nl pending :: l :: c1_emit [] ls
    else c1_emit (pending ++ [l]) ls

/-- The example command of claim C2. -/
def c2_example : String := ".open --readonly mydata.db"

/-- The expected rewriting of the example command of claim C2. -/
def c2_expected : String := "attach \x27mydata.db\x27 (READ_ONLY) as mydata; use mydata;"

/-- The bracket-wrapped unknown marker produced for unknown array types. -/
def wrappedUnknown : String := "[?]"

/-- A metadata source whose database listing fails, used for claim C5. -/
def c5_fail_source : MetaSource :=
  MetaSource.mk (Except.error (r"boom")) (fun _ => Except.ok [])
    (fun _ _ => Except.ok []) (fun _ _ _ => Except.ok [])

/-- A second failing metadata source, used to witness claim C5. -/
def c5_dbdown_source : MetaSource :=
  MetaSource.mk (Except.error (r"db listing failed")) (fun _ => Except.ok [])
    (fun _ _ => Except.ok []) (fun _ _ _ => Except.ok [])

/-- The deterministic metadata source of claim C6: one database, one
schema, one base table with an INTEGER column and a VARCHAR array
column. -/
def c6_source : MetaSource :=
  MetaSource.mk (Except.ok [(r"db1")]) (fun _ => Except.ok [(r"main")])
    (fun _ _ => Except.ok [((r"tbl"), (r"BASE TABLE"))])
    (fun _ _ _ => Except.ok [((r"a"), (r"INTEGER")), ((r"b"), (r"VARCHAR[]"))])

/-- The quoted identifier of the database of claim C6. -/
def c6_db_id : String := dq ++ (r"db1") ++ dq

/-- The quoted identifier of the schema of claim C6. -/
def c6_sch_id : String := c6_db_id ++ dotS ++ dq ++ (r"main") ++ dq

/-- The quoted identifier of the table of claim C6. -/
def c6_tbl_id : String := c6_sch_id ++ dotS ++ dq ++ (r"tbl") ++ dq

/-- The expected catalog tree of claim C6: a depth-four chain of one
database node, one schema node, one table node, and two column leaves
with tags for integer and string array. -/
def c6_expected : Catalog :=
  Catalog.mk
    [CatalogItem.mk c6_db_id c6_db_id (r"db1") (r"db")
      [CatalogItem.mk c6_sch_id c6_sch_id (r"main") (r"sch")
        [CatalogItem.mk c6_tbl_id c6_tbl_id (r"tbl") (r"t")
          [CatalogItem.mk (c6_tbl_id ++ dotS ++ dq ++ (r"a") ++ dq) (dq ++ (r"a") ++ dq)
            (r"a") (r"#") [],
           CatalogItem.mk (c6_tbl_id ++ dotS ++ dq ++ (r"b") ++ dq) (dq ++ (r"b") ++ dq)
            (r"b") (r"[s]") []]]]]

/-- The whitespace-only script of claim C7. -/
def c7_blank : String := "  "

/-- The tail of the in-memory attach string after the word attach. -/
def c9_memRest : String := "\x27:memory:\x27; use memory;"

/-- The example command of claim C10. -/
def c10_example : String := ".openx foo.db"

/-- The expected rewriting of the example command of claim C10. -/
def c10_expected : String := "attach \x27foo.db\x27 as foo; use foo;"

/-- Modelled on the spec wording quoted by claim C4: the statements one
split command contributes to the bootstrap, namely the pieces of its
rewriting split on semicolons whose stripped form is nonempty. -/
def c4_stmts_of (command : String) : List String :=
  (pySplitOnChar ';' (_rewrite_init_command command)).filter
    (fun st => !(pyStrip st).toList.isEmpty)

/-- Modelled on the spec wording quoted by claim C4: all statements the
bootstrap submits for a script, in script order. -/
def c4_statements (script : String) : List String :=
  ((_split_script script).map c4_stmts_of).flatten

/-- Modelled on the spec wording quoted by claim C4: execute a flat list
of statements strictly in order against the engine, counting successful
submissions, stopping at the first engine error and keeping the state
reached so far. -/
def c4_exec_flat {σ : Type} (execStmt : σ → String → Except String σ) :
    σ → List String → σ × Nat × Option String
  | s, [] => (s, 0, none)
  | s, c :: cs =>
    match execStmt s c with
    | .ok s2 =>
      let res := c4_exec_flat execStmt s2 cs
      (res.1, res.2.1 + 1, res.2.2)
    | .error e => (s, 0, some e)

/-- A key found by association-list lookup is a member of the list. -/
theorem lookup_mem {α β : Type} [BEq α] [LawfulBEq α] {a : α} {b : β} :
    ∀ {l : List (α × β)}, List.lookup a l = some b → (a, b) ∈ l := by
  intro l
  induction l with
  | nil => intro h; simp [List.lookup] at h
  | cons p rest ih =>
    intro h
    obtain ⟨k, v⟩ := p
    cases hak : a == k with
    | false =>
      rw [List.lookup, hak] at h
      exact List.mem_cons_of_mem _ (ih h)
    | true =>
      rw [List.lookup, hak] at h
      have ha : a = k := eq_of_beq hak
      have hb : v = b := by simpa using h
      subst ha; subst hb
      exact List.mem_cons_self _ _

/-- Claim C8: the rewriter returns any command not starting with a dot
unchanged, returns the empty string for every dot command other than an
open command, and in particular rewrites ".help" to the empty string;
it is a total function, so it never raises. -/
theorem c8_rewrite_default :
    (∀ c : String, pyStartsWith c dotS = false → _rewrite_init_command c = c) ∧
    (∀ c : String, pyStartsWith c dotS = true → pyStartsWith c openS = false →
      _rewrite_init_command c = emptyS) ∧
    _rewrite_init_command (r".help") = emptyS := by
  refine ⟨?_, ?_, ?_⟩
  · intro c h; simp [_rewrite_init_command, h]
  · intro c h1 h2; simp [_rewrite_init_command, h1, h2]
  · decide

/-- Witness for claim C8 at the concrete commands "select 1" and
".attach x". -/
theorem c8_rewrite_default_witness :
    (pyStartsWith (r"select 1") dotS = false ∧
      _rewrite_init_command (r"select 1") = (r"select 1")) ∧
    (pyStartsWith (r".attach x") dotS = true ∧ pyStartsWith (r".attach x") openS = false ∧
      _rewrite_init_command (r".attach x") = emptyS) :=
  ⟨⟨by decide, c8_rewrite_default.1 _ (by decide)⟩,
   ⟨by decide, by decide, c8_rewrite_default.2.1 _ (by decide) (by decide)⟩⟩

/-- Claim C9: for every command starting with a dot, the rewriter output
is either the empty string or a string beginning with "attach ", so the
bootstrap loop never receives meta-command text from the rewriter. -/
theorem c9_no_meta_output :
    ∀ c : String, pyStartsWith c dotS = true →
      _rewrite_init_command c = emptyS ∨
        ∃ rest, _rewrite_init_command c = attachS ++ rest := by
  intro c h
  have key : ∀ x o st : String,
      ∃ rest, attachS ++ sqS ++ x ++ sqS ++ o ++ asS ++ st ++ useS ++ st ++ semiS
        = attachS ++ rest :=
    fun x o st =>
      ⟨sqS ++ (x ++ (sqS ++ (o ++ (asS ++ (st ++ (useS ++ (st ++ semiS))))))),
        by simp [String.append_assoc]⟩
  cases ho : pyStartsWith c openS with
  | false => left; simp [_rewrite_init_command, h, ho]
  | true =>
    right
    have hdisp : _rewrite_init_command c = _rewrite_dot_open c := by
      simp [_rewrite_init_command, h, ho]
    rw [hdisp]
    unfold _rewrite_dot_open
    cases ha : ((pySplitWs c).drop 1).isEmpty with
    | true =>
      simp only [ha, if_true]
      exact ⟨c9_memRest, by decide⟩
    | false =>
      simp only [ha, Bool.false_eq_true, if_false]
      exact key _ _ _

/-- Witness for claim C9 at the concrete command ".help". -/
theorem c9_no_meta_output_witness :
    pyStartsWith (r".help") dotS = true ∧
      (_rewrite_init_command (r".help") = emptyS ∨
        ∃ rest, _rewrite_init_command (r".help") = attachS ++ rest) :=
  ⟨by decide, c9_no_meta_output _ (by decide)⟩

/-- Claim C10: the open-rewrite dispatch matches by string starts-with,
not exact command name, so every command whose text starts with ".open"
is handed to the dot-open rewriter; in particular ".openx foo.db" is
rewritten to an attach statement rather than dropped. -/
theorem c10_open_extension_dispatch :
    (∀ c : String, pyStartsWith c openS = true →
      _rewrite_init_command c = _rewrite_dot_open c) ∧
    _rewrite_init_command c10_example = c10_expected := by
  constructor
  · intro c h
    have h1 : dotS.toList <+: openS.toList := ⟨(r"open").toList, by decide⟩
    have h2 : openS.toList <+: c.toList := by
      have := h
      unfold pyStartsWith at this
      exact List.isPrefixOf_iff_prefix.mp this
    have hd : pyStartsWith c dotS = true := by
      unfold pyStartsWith
      exact List.isPrefixOf_iff_prefix.mpr (h1.trans h2)
    simp [_rewrite_init_command, hd, h]
  · decide

/-- Witness for claim C10 at the concrete command ".openx foo.db". -/
theorem c10_open_extension_dispatch_witness :
    pyStartsWith c10_example openS = true ∧
      _rewrite_init_command c10_example = _rewrite_dot_open c10_example :=
  ⟨by decide, c10_open_extension_dispatch.1 _ (by decide)⟩

/-- Claim C3 (amended): the type normalizer is a total function, and its
result is the bare unknown marker iff the stripped base name is absent
from the column table and the native type does not end with the array
suffix; when the base name is absent and the native type does end with
the array suffix, the result is the bracket-wrapped unknown marker
instead of the bare one. -/
theorem c3_unknown_marker (t : String) :
    (_short_column_type t = UNKNOWN_TYPE ↔
      (List.lookup (base_of t) COLUMN_TYPE_MAPPING = none ∧
        pyEndsWith t (r"[]") = false)) ∧
    (_short_column_type t = wrappedUnknown ↔
      (List.lookup (base_of t) COLUMN_TYPE_MAPPING = none ∧
        pyEndsWith t (r"[]") = true)) := by
  have hw : (r"[") ++ UNKNOWN_TYPE ++ (r"]") = wrappedUnknown := by decide
  have hq : UNKNOWN_TYPE ≠ wrappedUnknown := by decide
  have hq2 : wrappedUnknown ≠ UNKNOWN_TYPE := by decide
  have tv : ∀ p ∈ COLUMN_TYPE_MAPPING, p.2 ≠ UNKNOWN_TYPE ∧ p.2 ≠ wrappedUnknown ∧
      (r"[") ++ p.2 ++ (r"]") ≠ UNKNOWN_TYPE ∧
      (r"[") ++ p.2 ++ (r"]") ≠ wrappedUnknown := by decide
  cases hl : List.lookup (base_of t) COLUMN_TYPE_MAPPING with
  | none =>
    cases he : pyEndsWith t (r"[]") <;>
      simp [_short_column_type, hl, he, hw, hq, hq2]
  | some v =>
    obtain ⟨h1, h2, h3, h4⟩ := tv _ (lookup_mem hl)
    cases he : pyEndsWith t (r"[]") <;>
      simp [_short_column_type, hl, he, h1, h2, h3, h4]

/-- Counterexample for claim C3 as stated: the native type "FROB[]" has a
base name absent from the column table, yet the normalizer returns the
bracket-wrapped marker, not the bare unknown marker. -/
theorem c3_unknown_counterexample :
    List.lookup (base_of (r"FROB[]")) COLUMN_TYPE_MAPPING = none ∧
      _short_column_type (r"FROB[]") ≠ UNKNOWN_TYPE ∧
      _short_column_type (r"FROB[]") = wrappedUnknown := by decide

/-- Claim C6: on the deterministic metadata source with one database, one
schema, one base table and columns of types INTEGER and VARCHAR array,
the catalog build returns exactly the expected depth-four tree, with
type labels db, sch, t, and column tags for integer and string array,
siblings in metadata-query order. -/
theorem c6_catalog_tree : get_catalog c6_source = Except.ok c6_expected := by
  rfl

/-- Binding a failed Except computation fails with the same error. -/
theorem except_bind_error {ε α β : Type} (e : ε) (f : α → Except ε β) :
    (Except.error e >>= f : Except ε β) = Except.error e := rfl

/-- Binding a successful Except computation applies the continuation. -/
theorem except_bind_ok {ε α β : Type} (a : α) (f : α → Except ε β) :
    (Except.ok a >>= f : Except ε β) = f a := rfl

/-- Mapping over a failed Except computation fails with the same error. -/
theorem except_map_error {ε α β : Type} (e : ε) (f : α → β) :
    (f <$> (Except.error e : Except ε α)) = Except.error e := rfl

/-- One step of the List.mapM worker loop. -/
theorem mapM_loop_cons {m : Type → Type} [Monad m] {α β : Type}
    (f : α → m β) (a : α) (l : List α) (acc : List β) :
    List.mapM.loop f (a :: l) acc = f a >>= fun b => List.mapM.loop f l (b :: acc) := rfl

/-- Claim C5 (amended): a metadata-query failure during the catalog build
propagates the underlying engine error unchanged, and no catalog (in
particular no partial catalog) is returned; this holds at each of the
four query depths. -/
theorem c5_error_propagation :
    (∀ (src : MetaSource) (e : String), src._get_databases = Except.error e →
      get_catalog src = Except.error e) ∧
    (∀ (src : MetaSource) (d : String) (ds : List String) (e : String),
      src._get_databases = Except.ok (d :: ds) → src._get_schemas d = Except.error e →
      get_catalog src = Except.error e) ∧
    (∀ (src : MetaSource) (d : String) (ds : List String) (s : String)
      (ss : List String) (e : String),
      src._get_databases = Except.ok (d :: ds) → src._get_schemas d = Except.ok (s :: ss) →
      src._get_tables d s = Except.error e → get_catalog src = Except.error e) ∧
    (∀ (src : MetaSource) (d : String) (ds : List String) (s : String)
      (ss : List String) (tk : String × String) (ts : List (String × String)) (e : String),
      src._get_databases = Except.ok (d :: ds) → src._get_schemas d = Except.ok (s :: ss) →
      src._get_tables d s = Except.ok (tk :: ts) →
      src._get_columns d s tk.1 = Except.error e →
      get_catalog src = Except.error e) := by
  refine ⟨?_, ?_, ?_, ?_⟩
  · intro src e h
    simp [get_catalog, h, except_bind_error, except_bind_ok, except_map_error, mapM_loop_cons]
  · intro src d ds e h1 h2
    simp [get_catalog, h1, h2, except_bind_error, except_bind_ok, except_map_error,
      mapM_loop_cons]
  · intro src d ds s ss e h1 h2 h3
    simp [get_catalog, h1, h2, h3, except_bind_error, except_bind_ok, except_map_error,
      mapM_loop_cons]
  · intro src d ds s ss tk ts e h1 h2 h3 h4
    simp [get_catalog, h1, h2, h3, h4, except_bind_error, except_bind_ok, except_map_error,
      mapM_loop_cons]

/-- Counterexample for claim C5 as stated: when the database listing
fails with the bare engine message "boom", the catalog build surfaces
exactly that untouched engine error; no connection-level wrapping and no
fixed title are attached anywhere in the build. -/
theorem c5_unwrapped_error_counterexample :
    get_catalog c5_fail_source = Except.error (r"boom") := by rfl

/-- Witness for claim C5 at a concrete failing metadata source. -/
theorem c5_error_propagation_witness :
    c5_dbdown_source._get_databases = Except.error (r"db listing failed") ∧
      get_catalog c5_dbdown_source = Except.error (r"db listing failed") :=
  ⟨rfl, c5_error_propagation.1 _ _ rfl⟩

/-- Claim C2: the open-rewrite rule tokenizes the command on whitespace
and drops the command name; with no arguments it attaches an in-memory
database; with exactly two arguments whose first is the read-only flag it
attaches the second argument read-only under its stem; otherwise it
attaches the first token under its stem; in particular the read-only
example rewrites as stated. -/
theorem c2_rewrite_open :
    (∀ c : String, pyStartsWith c openS = true → (pySplitWs c).drop 1 = [] →
      _rewrite_dot_open c = memoryAttachS) ∧
    (∀ c p : String, pyStartsWith c openS = true →
      (pySplitWs c).drop 1 = [roFlagS, p] →
      _rewrite_dot_open c =
        attachS ++ sqS ++ posixStr p ++ sqS ++ readOnlyOptS ++ asS ++ posixStem p ++
          useS ++ posixStem p ++ semiS) ∧
    (∀ (c t : String) (rest : List String), pyStartsWith c openS = true →
      (pySplitWs c).drop 1 = t :: rest → ¬(t = roFlagS ∧ rest.length = 1) →
      _rewrite_dot_open c =
        attachS ++ sqS ++ posixStr t ++ sqS ++ asS ++ posixStem t ++
          useS ++ posixStem t ++ semiS) ∧
    _rewrite_init_command c2_example = c2_expected := by
  refine ⟨?_, ?_, ?_, ?_⟩
  · intro c h ha
    simp [_rewrite_dot_open, ha]
  · intro c p h ha
    simp [_rewrite_dot_open, ha]
  · intro c t rest h ha hnot
    have hcond : ¬(rest.length = 1 ∧ t = roFlagS) := fun hc => hnot ⟨hc.2, hc.1⟩
    simp [_rewrite_dot_open, ha, hcond, emptyS]
  · decide

/-- Witness for claim C2 at the concrete commands ".open" and
".open --readonly mydata.db". -/
theorem c2_rewrite_open_witness :
    ((pySplitWs (r".open")).drop 1 = [] ∧ _rewrite_dot_open (r".open") = memoryAttachS) ∧
      _rewrite_dot_open c2_example =
        attachS ++ sqS ++ posixStr (r"mydata.db") ++ sqS ++ readOnlyOptS ++
          asS ++ posixStem (r"mydata.db") ++ useS ++ posixStem (r"mydata.db") ++ semiS :=
  ⟨⟨by decide, c2_rewrite_open.1 _ (by decide) (by decide)⟩,
    c2_rewrite_open.2.1 _ _ (by decide) (by decide)⟩

/-- Taking one more element of a list whose drop at that position is
known to start with a given element appends exactly that element. -/
theorem take_succ_of_drop {α : Type} :
    ∀ (l : List α) (n : Nat) (x : α) (t : List α),
      l.drop n = x :: t → l.take (n + 1) = l.take n ++ [x] := by
  intro l
  induction l with
  | nil => intro n x t h; simp at h
  | cons a as ih =>
    intro n x t h
    cases n with
    | zero =>
      simp only [List.drop_zero] at h
      injection h with h1 h2
      subst h1
      simp
    | succ n =>
      have h2 : as.drop n = x :: t := h
      simp [List.take_succ_cons, ih _ _ _ h2]

/-- Relative correctness of the splitter loop: folding the loop body over
the enumerated remaining lines, starting at any boundary index and
accumulated command list, and then appending the join of the final tail,
yields the accumulated commands followed by the spec-level emission of
the pending slice and the remaining lines. -/
theorem c1_loop_spec (lines : List String) :
    ∀ (rest : List String) (k i : Nat) (acc : List String),
      i ≤ k → lines.drop k = rest →
      ((rest.enumFrom k).foldl (split_fold lines) (i, acc)).2 ++
          [pyJoin nl (lines.drop ((rest.enumFrom k).foldl (split_fold lines) (i, acc)).1)] =
        acc ++ c1_emit ((lines.drop i).take (k - i)) rest := by
  intro rest
  induction rest with
  | nil =>
    intro k i acc hik hdrop
    have hlen : lines.length ≤ k := by
      have h := congrArg List.length hdrop
      simp only [List.length_drop, List.length_nil] at h
      omega
    have htake : (lines.drop i).take (k - i) = lines.drop i := by
      apply List.take_of_length_le
      simp only [List.length_drop]
      omega
    simp [c1_emit, htake]
  | cons r rest ih =>
    intro k i acc hik hdrop
    have hdrop1 : lines.drop (k + 1) = rest := by
      have h1 : lines.drop (k + 1) = (lines.drop k).drop 1 := by
        rw [List.drop_drop]
      rw [h1, hdrop]
      rfl
    rw [List.enumFrom_cons]
    simp only [List.foldl_cons]
    cases hdot : pyStartsWith r dotS with
    | true =>
      have hf : split_fold lines (i, acc) (k, r) =
          (k + 1, acc ++ [pyJoin nl ((lines.drop i).take (k - i)), r]) := by
        simp [split_fold, hdot]
      rw [hf]
      have hspec := ih (k + 1) (k + 1) (acc ++ [pyJoin nl ((lines.drop i).take (k - i)), r])
        (Nat.le_refl _) hdrop1
      rw [hspec]
      rw [c1_emit]
      simp [hdot, Nat.sub_self]
    | false =>
      have hf : split_fold lines (i, acc) (k, r) = (i, acc) := by
        simp [split_fold, hdot]
      rw [hf]
      have hspec := ih (k + 1) i acc (Nat.le_succ_of_le hik) hdrop1
      rw [hspec]
      have hkd : (lines.drop i).drop (k - i) = r :: rest := by
        rw [List.drop_drop]
        have h2 : i + (k - i) = k := by omega
        rw [h2, hdrop]
      have htake1 : (lines.drop i).take (k + 1 - i) = (lines.drop i).take (k - i) ++ [r] := by
        have h3 : k + 1 - i = (k - i) + 1 := by omega
        rw [h3]
        exact take_succ_of_drop _ _ _ _ hkd
      rw [htake1, c1_emit]
      simp [hdot]

/-- Claim C1: for every script, the raw command collection of the
splitter scans lines in order and emits, at each line whose first
character is a dot, the newline-join of the preceding lines since the
last boundary and then the dot line itself, and after the scan the join
of the remaining trailing lines; in particular the three-command example
splits exactly as stated. -/
theorem c1_split_boundaries :
    (∀ script : String, _split_script_raw script = c1_emit [] (pySplitlines script)) ∧
    _split_script c1_exampleScript =
      [(r"select 1;"), (r".open foo.db"), (r"select 2;")] := by
  constructor
  · intro script
    have h := c1_loop_spec (pySplitlines script) (pySplitlines script) 0 0 []
      (Nat.le_refl 0) (by rw [List.drop_zero])
    simp only [List.drop_zero, List.take_zero, Nat.sub_self] at h
    simpa [_split_script_raw, List.enum_eq_enumFrom] using h
  · decide

/-- When no remaining line starts with a dot, the splitter loop leaves
its state unchanged. -/
theorem c7_fold_nodot (lines : List String) :
    ∀ (rest : List String) (k : Nat) (st : Nat × List String),
      (∀ l ∈ rest, pyStartsWith l dotS = false) →
      (rest.enumFrom k).foldl (split_fold lines) st = st := by
  intro rest
  induction rest with
  | nil => intro k st _; rfl
  | cons r rest ih =>
    intro k st h
    rw [List.enumFrom_cons]
    simp only [List.foldl_cons]
    have hr : pyStartsWith r dotS = false := h r (List.mem_cons_self _ _)
    have hf : split_fold lines st (k, r) = st := by simp [split_fold, hr]
    rw [hf]
    exact ih (k + 1) st (fun l hl => h l (List.mem_cons_of_mem _ hl))

/-- The head of a dropWhile result falsifies the predicate. -/
theorem dropWhile_head_false (p : Char → Bool) :
    ∀ (l : List Char) (x : Char) (xs : List Char),
      l.dropWhile p = x :: xs → p x = false := by
  intro l
  induction l with
  | nil => intro x xs h; simp [List.dropWhile] at h
  | cons a as ih =>
    intro x xs h
    cases hpa : p a with
    | true =>
      rw [List.dropWhile_cons, hpa] at h
      simp only [if_true] at h
      exact ih _ _ h
    | false =>
      rw [List.dropWhile_cons, hpa] at h
      simp only [Bool.false_eq_true, if_false] at h
      injection h with h1 h2
      subst h1
      exact hpa

/-- Stripping from the right keeps a left-stripped list left-stripped. -/
theorem stripL_drop_fix (l : List Char) :
    List.dropWhile isPySpace (pyStripL l) = pyStripL l := by
  unfold pyStripL
  cases hB : List.rdropWhile isPySpace (List.dropWhile isPySpace l) with
  | nil => simp
  | cons x xs =>
    obtain ⟨t, ht⟩ := List.rdropWhile_prefix isPySpace (List.dropWhile isPySpace l)
    rw [hB] at ht
    have hdw : List.dropWhile isPySpace l = x :: (xs ++ t) := by
      rw [← ht]
      simp
    have hx := dropWhile_head_false isPySpace l x (xs ++ t) hdw
    rw [List.dropWhile_cons, hx]
    simp

/-- The character-level strip is idempotent. -/
theorem pyStripL_idem (l : List Char) : pyStripL (pyStripL l) = pyStripL l := by
  have h1 : List.dropWhile isPySpace (pyStripL l) = pyStripL l := stripL_drop_fix l
  show List.rdropWhile isPySpace (List.dropWhile isPySpace (pyStripL l)) = pyStripL l
  rw [h1]
  show List.rdropWhile isPySpace (List.rdropWhile isPySpace
    (List.dropWhile isPySpace l)) = pyStripL l
  exact List.rdropWhile_idempotent _ _

/-- The string-level strip is idempotent. -/
theorem pyStrip_idem (s : String) : pyStrip (pyStrip s) = pyStrip s := by
  show String.mk (pyStripL (String.mk (pyStripL s.toList)).toList) =
    String.mk (pyStripL s.toList)
  have htl : (String.mk (pyStripL s.toList)).toList = pyStripL s.toList := rfl
  rw [htl, pyStripL_idem]

/-- A string other than the empty string has a nonempty character list. -/
theorem toList_not_empty {s : String} (h : s ≠ emptyS) : s.toList.isEmpty = false := by
  cases hE : s.toList.isEmpty with
  | false => rfl
  | true =>
    exfalso
    apply h
    have hnil : s.toList = [] := List.isEmpty_iff.mp hE
    cases s with
    | mk data =>
      have : data = [] := hnil
      rw [this]
      rfl

/-- Claim C7 (amended): for every script none of whose lines starts with
a dot, the splitter returns exactly one command, the stripped newline
join of the lines, except that it returns the empty sequence when that
join is empty before stripping (in particular for the empty script);
every returned command is strip-fixed; but a command that is whitespace
only before stripping is kept and becomes an empty-string command, as
the two-space script shows. -/
theorem c7_split_trim :
    (∀ script : String, (∀ l ∈ pySplitlines script, pyStartsWith l dotS = false) →
      _split_script script =
        if pyJoin nl (pySplitlines script) = emptyS then []
        else [pyStrip (pyJoin nl (pySplitlines script))]) ∧
    (∀ script c : String, c ∈ _split_script script → pyStrip c = c) ∧
    _split_script c7_blank = [emptyS] := by
  refine ⟨?_, ?_, ?_⟩
  · intro script hnd
    have hfold := c7_fold_nodot (pySplitlines script) (pySplitlines script) 0
      ((0 : Nat), ([] : List String)) hnd
    unfold _split_script _split_script_raw
    dsimp only
    rw [List.enum_eq_enumFrom, hfold]
    simp only [List.drop_zero, List.nil_append]
    by_cases hj : pyJoin nl (pySplitlines script) = emptyS
    · rw [if_pos hj, hj]
      simp [emptyS]
    · rw [if_neg hj]
      have hne := toList_not_empty hj
      have hne2 : (pyJoin nl (pySplitlines script)).data.isEmpty = false := hne
      simp [hne2]
  · intro script c hc
    unfold _split_script at hc
    rw [List.mem_map] at hc
    obtain ⟨c2, _, rfl⟩ := hc
    exact pyStrip_idem c2
  · decide

/-- Counterexample for claim C7 as stated: the two-space script is blank,
yet the splitter returns a one-element sequence containing the empty
command rather than the empty sequence with empty commands dropped,
because the filter runs before the strip. -/
theorem c7_empty_kept_counterexample :
    _split_script c7_blank = [emptyS] ∧ emptyS ∈ _split_script c7_blank := by decide

/-- Witness for claim C7 at the concrete one-line script "select 1;". -/
theorem c7_split_trim_witness :
    _split_script (r"select 1;") =
      (if pyJoin nl (pySplitlines (r"select 1;")) = emptyS then []
        else [pyStrip (pyJoin nl (pySplitlines (r"select 1;")))]) ∧
    pyStrip (r"select 1;") = (r"select 1;") :=
  ⟨c7_split_trim.1 _ (by decide),
    c7_split_trim.2.1 (r"select 1;") (r"select 1;") (by decide)⟩

/-- Flat execution distributes over list append: if the first part
succeeds execution continues on the second from the reached state with
counts added, and if the first part fails the failure is final. -/
theorem c4_flat_append_ok {σ : Type} (execStmt : σ → String → Except String σ) :
    ∀ (l1 l2 : List String) (s s1 : σ) (n1 : Nat),
      c4_exec_flat execStmt s l1 = (s1, n1, none) →
      c4_exec_flat execStmt s (l1 ++ l2) =
        ((c4_exec_flat execStmt s1 l2).1, n1 + (c4_exec_flat execStmt s1 l2).2.1,
          (c4_exec_flat execStmt s1 l2).2.2) := by
  intro l1
  induction l1 with
  | nil =>
    intro l2 s s1 n1 h
    simp only [c4_exec_flat, Prod.mk.injEq] at h
    obtain ⟨h1, h2, h3⟩ := h
    subst h1; subst h2
    simp
  | cons c cs ih =>
    intro l2 s s1 n1 h
    cases he : execStmt s c with
    | ok s2 =>
      rcases hr : c4_exec_flat execStmt s2 cs with ⟨a, b, err⟩
      simp only [c4_exec_flat, he, hr, Prod.mk.injEq] at h
      obtain ⟨h1, h2, h3⟩ := h
      cases err with
      | some e => exact absurd h3 (by simp)
      | none =>
        subst h1; subst h2
        have hstep : c4_exec_flat execStmt s ((c :: cs) ++ l2) =
            ((c4_exec_flat execStmt s2 (cs ++ l2)).1,
              (c4_exec_flat execStmt s2 (cs ++ l2)).2.1 + 1,
              (c4_exec_flat execStmt s2 (cs ++ l2)).2.2) := by
          show c4_exec_flat execStmt s (c :: (cs ++ l2)) = _
          simp only [c4_exec_flat, he]
        rw [hstep, ih l2 s2 a b hr]
        simp only [Prod.mk.injEq, true_and, and_true]
        omega
    | error e =>
      simp only [c4_exec_flat, he, Prod.mk.injEq] at h
      obtain ⟨h1, h2, h3⟩ := h
      exact absurd h3 (by simp)

/-- Flat execution stops at the first error even with a list appended. -/
theorem c4_flat_append_err {σ : Type} (execStmt : σ → String → Except String σ) :
    ∀ (l1 l2 : List String) (s s1 : σ) (n1 : Nat) (e : String),
      c4_exec_flat execStmt s l1 = (s1, n1, some e) →
      c4_exec_flat execStmt s (l1 ++ l2) = (s1, n1, some e) := by
  intro l1
  induction l1 with
  | nil =>
    intro l2 s s1 n1 e h
    simp only [c4_exec_flat, Prod.mk.injEq] at h
    obtain ⟨h1, h2, h3⟩ := h
    exact absurd h3 (by simp)
  | cons c cs ih =>
    intro l2 s s1 n1 e h
    cases he : execStmt s c with
    | ok s2 =>
      rcases hr : c4_exec_flat execStmt s2 cs with ⟨a, b, err⟩
      simp only [c4_exec_flat, he, hr, Prod.mk.injEq] at h
      obtain ⟨h1, h2, h3⟩ := h
      cases err with
      | none => exact absurd h3 (by simp)
      | some e2 =>
        have he2 : e2 = e := by simpa using h3
        subst h1; subst h2; subst he2
        have hstep : c4_exec_flat execStmt s ((c :: cs) ++ l2) =
            ((c4_exec_flat execStmt s2 (cs ++ l2)).1,
              (c4_exec_flat execStmt s2 (cs ++ l2)).2.1 + 1,
              (c4_exec_flat execStmt s2 (cs ++ l2)).2.2) := by
          show c4_exec_flat execStmt s (c :: (cs ++ l2)) = _
          simp only [c4_exec_flat, he]
        rw [hstep, ih l2 s2 a b e2 hr]
    | error e2 =>
      simp only [c4_exec_flat, he, Prod.mk.injEq] at h
      obtain ⟨h1, h2, h3⟩ := h
      have he2 : e2 = e := by simpa using h3
      subst h1; subst h2; subst he2
      show c4_exec_flat execStmt s (c :: (cs ++ l2)) = _
      simp [c4_exec_flat, he]

/-- The inner statement loop equals flat execution of the statements
whose stripped form is nonempty, with the running count added. -/
theorem c4_run_stmts_spec {σ : Type} (execStmt : σ → String → Except String σ) :
    ∀ (l : List String) (s : σ) (n : Nat),
      connect_run_stmts execStmt s n l =
        ((c4_exec_flat execStmt s (l.filter (fun c => !(pyStrip c).toList.isEmpty))).1,
          n + (c4_exec_flat execStmt s
            (l.filter (fun c => !(pyStrip c).toList.isEmpty))).2.1,
          (c4_exec_flat execStmt s
            (l.filter (fun c => !(pyStrip c).toList.isEmpty))).2.2) := by
  intro l
  induction l with
  | nil => intro s n; simp [connect_run_stmts, c4_exec_flat]
  | cons c cs ih =>
    intro s n
    cases hst : (pyStrip c).toList.isEmpty with
    | true =>
      simp only [connect_run_stmts, hst, Bool.not_true, Bool.false_eq_true, if_false,
        List.filter_cons]
      rw [ih]
    | false =>
      cases he : execStmt s c with
      | ok s2 =>
        simp only [connect_run_stmts, hst, Bool.not_false, if_true, he, List.filter_cons]
        rw [ih]
        simp only [c4_exec_flat, he, Prod.mk.injEq, true_and, and_true]
        omega
      | error e =>
        simp only [connect_run_stmts, hst, Bool.not_false, if_true, he, List.filter_cons]
        simp [c4_exec_flat, he]

/-- The outer command loop equals flat execution of all statements the
commands contribute, concatenated in command order, with the running
count added. -/
theorem c4_run_commands_spec {σ : Type} (execStmt : σ → String → Except String σ) :
    ∀ (cmds : List String) (s : σ) (n : Nat),
      connect_run_commands execStmt s n cmds =
        ((c4_exec_flat execStmt s ((cmds.map c4_stmts_of).flatten)).1,
          n + (c4_exec_flat execStmt s ((cmds.map c4_stmts_of).flatten)).2.1,
          (c4_exec_flat execStmt s ((cmds.map c4_stmts_of).flatten)).2.2) := by
  intro cmds
  induction cmds with
  | nil => intro s n; simp [connect_run_commands, c4_exec_flat]
  | cons cmd rest ih =>
    intro s n
    have hstmts : (pySplitOnChar ';' (_rewrite_init_command cmd)).filter
        (fun c => !(pyStrip c).toList.isEmpty) = c4_stmts_of cmd := rfl
    rw [connect_run_commands, c4_run_stmts_spec, hstmts]
    rcases hflat : c4_exec_flat execStmt s (c4_stmts_of cmd) with ⟨s1, n1, err⟩
    cases err with
    | none =>
      simp only []
      rw [ih]
      rw [List.map_cons, List.flatten_cons]
      rw [c4_flat_append_ok execStmt (c4_stmts_of cmd) ((rest.map c4_stmts_of).flatten)
        s s1 n1 hflat]
      simp only [Prod.mk.injEq, true_and, and_true]
      omega
    | some e =>
      simp only []
      rw [List.map_cons, List.flatten_cons]
      rw [c4_flat_append_err execStmt (c4_stmts_of cmd) ((rest.map c4_stmts_of).flatten)
        s s1 n1 e hflat]

/-- Claim C4: the session bootstrap processes the split commands strictly
in script order; for each command it applies the rewriter, splits the
result on semicolons and executes each statement whose trimmed form is
nonempty in order, counting successfully submitted statements; on the
first engine failure it stops at once and raises a connection-level
error whose message carries the underlying engine message; and the state
reached by the earlier successful statements is kept, not rolled back. -/
theorem c4_bootstrap_order {σ : Type} (execStmt : σ → String → Except String σ)
    (connection : σ) (init_path init_script : String) :
    connect_init execStmt connection init_path init_script =
      ((c4_exec_flat execStmt connection (c4_statements init_script)).1,
        match (c4_exec_flat execStmt connection (c4_statements init_script)).2.2 with
        | none =>
          Except.ok
            (if (c4_exec_flat execStmt connection (c4_statements init_script)).2.1 > 0
              then execMsg (c4_exec_flat execStmt connection
                (c4_statements init_script)).2.1 init_path
              else emptyS)
        | some e =>
          Except.error
            (HarlequinConnectionError.mk (scriptErrMsg init_script e) initErrTitleS)) := by
  have hcs : ((_split_script init_script).map c4_stmts_of).flatten =
      c4_statements init_script := rfl
  rw [connect_init, c4_run_commands_spec, hcs]
  rcases hflat : c4_exec_flat execStmt connection (c4_statements init_script) with ⟨s1, n1, err⟩
  cases err with
  | none => simp
  | some e => simp
